import Mathlib

/-!
Verification of `src/render_bootstrap.py`, a launcher shim that patches the
Streamlit signal-handler installation to be thread-aware and resolves the
deployment environment (address, port, headless and telemetry flags) before
handing control to the framework bootstrap.

The process environment is modelled as a partial map from variable names to
string values. Python primitives used by the script (`str.strip`,
`str.lower`, `int(...)`, `str(int)`) are modelled over the ASCII fragment,
which covers every value the script itself ever writes and all deployment
values of interest. All definitions are total functions: the script's
configuration-resolution path handles its single anticipated failure
(a non-numeric port string) internally, so the embedding needs no error
monad for it.
-/

/-- The process environment: a partial map from variable name to value,
modelling `os.environ`. -/
abbrev Env := String → Option String

/-- Write of an environment variable, modelling `os.environ[k] = v`. -/
def Env.set (e : Env) (k v : String) : Env :=
  fun k' => if k' = k then some v else e k'

/-- Defaulting write, modelling `os.environ.setdefault(k, v)`: the value is
stored only when the key is absent. -/
def Env.setdefault (e : Env) (k v : String) : Env :=
  match e k with
  | some _ => e
  | none => e.set k v

/-- Characters removed by Python's `str.strip()` (ASCII whitespace). -/
def isPySpace (c : Char) : Bool :=
  c == ' ' || c == '\t' || c == '\n' || c == '\r' || c == '\x0b' || c == '\x0c'

/-- Core of `str.strip()` on the character list. -/
def pyStripList (l : List Char) : List Char :=
  ((l.dropWhile isPySpace).reverse.dropWhile isPySpace).reverse

/-- Python's `str.strip()`: remove leading and trailing whitespace. -/
def pyStrip (s : String) : String :=
  String.mk (pyStripList s.data)

/-- Python's `str.lower()` on the ASCII fragment. -/
def pyLower (s : String) : String :=
  String.mk (s.data.map Char.toLower)

/-- Numeric value of an ASCII digit character. -/
def digitVal (c : Char) : Nat := c.toNat - 48

/-- Digit tail of a Python integer literal, entered after the leading digit:
decimal digits with single underscores allowed strictly between digits,
accumulating the value. The flag records that the previous character was an
underscore, so a further underscore or the end of input is rejected there. -/
def pyDigitsGo : List Char → Bool → Nat → Option Nat
  | [], afterUnd, acc => if afterUnd then none else some acc
  | c :: cs, afterUnd, acc =>
      if c.isDigit then pyDigitsGo cs false (10 * acc + digitVal c)
      else if c = '_' then (if afterUnd then none else pyDigitsGo cs true acc)
      else none

/-- Unsigned part of a Python integer literal: a nonempty digit sequence,
with single underscores between digits. -/
def pyUnsignedVal : List Char → Option Nat
  | [] => none
  | c :: cs => if c.isDigit then pyDigitsGo cs false (digitVal c) else none

/-- Python's `int(...)` applied to an already-stripped string: an optional
sign followed by a nonempty digit sequence (underscores between digits
allowed); anything else raises `ValueError`, modelled as `none`.
`int` itself also strips surrounding whitespace, so on the script's code
path -- which calls `.strip()` first -- composing this with `pyStrip`
is exactly `int(s.strip())`. -/
def pyParseIntCore : List Char → Option Int
  | [] => none
  | c :: cs =>
      if c = '+' then (pyUnsignedVal cs).map Int.ofNat
      else if c = '-' then (pyUnsignedVal cs).map (fun n => -Int.ofNat n)
      else (pyUnsignedVal (c :: cs)).map Int.ofNat

/-- Python's `int(...)` on a string with no surrounding whitespace. -/
def pyParseInt (s : String) : Option Int :=
  pyParseIntCore s.data

/-- Python's `str(...)` on an integer: the canonical decimal string. -/
def intToStr (n : Int) : String :=
  toString n

/-- Result of `_apply_render_defaults`: the final process environment
together with the returned flag-options mapping (`server.address`,
`server.port`, `server.headless`, `browser.gatherUsageStats`). -/
structure ResolveResult where
  env : Env
  address : String
  port : Int
  headless : Bool
  gatherUsageStats : Bool

/-- First `setdefault` line: `STREAMLIT_SERVER_ADDRESS` defaults to
`"0.0.0.0"`. -/
def envAfterAddress (env0 : Env) : Env :=
  env0.setdefault "STREAMLIT_SERVER_ADDRESS" "0.0.0.0"

/-- Second `setdefault` line: `STREAMLIT_SERVER_PORT` defaults to
`os.getenv("PORT", "8501")`. -/
def envAfterPort (env0 : Env) : Env :=
  (envAfterAddress env0).setdefault "STREAMLIT_SERVER_PORT"
    ((envAfterAddress env0 "PORT").getD "8501")

/-- Third `setdefault` line: `STREAMLIT_SERVER_HEADLESS` defaults to
`"true"`. -/
def envAfterHeadless (env0 : Env) : Env :=
  (envAfterPort env0).setdefault "STREAMLIT_SERVER_HEADLESS" "true"

/-- Fourth `setdefault` line: `STREAMLIT_BROWSER_GATHERUSAGESTATS` defaults
to `"false"`. -/
def envAfterStats (env0 : Env) : Env :=
  (envAfterHeadless env0).setdefault "STREAMLIT_BROWSER_GATHERUSAGESTATS" "false"

/-- The `try: port = int(port_env) except ValueError: port = 8501` block,
where `port_env = os.environ["STREAMLIT_SERVER_PORT"].strip()`. The key is
present after the `setdefault` lines, so the `getD ""` default is never
taken. -/
def resolvedPort (env0 : Env) : Int :=
  (pyParseInt (pyStrip ((envAfterStats env0 "STREAMLIT_SERVER_PORT").getD ""))).getD 8501

/-- The `os.environ["PORT"] = str(port)` line. -/
def finalEnv (env0 : Env) : Env :=
  (envAfterStats env0).set "PORT" (intToStr (resolvedPort env0))

/-- The whole of `_apply_render_defaults`: the four `setdefault` lines, the
port parse with its `ValueError` fallback, the write-back of `PORT`, and
the returned flag-options dictionary. Environment reads in the returned
dictionary hit keys guaranteed present, so each `getD ""` default is
unreachable. -/
def apply_render_defaults (env0 : Env) : ResolveResult :=
  { env := finalEnv env0
    address := (finalEnv env0 "STREAMLIT_SERVER_ADDRESS").getD ""
    port := resolvedPort env0
    headless :=
      pyLower ((finalEnv env0 "STREAMLIT_SERVER_HEADLESS").getD "") == "true"
    gatherUsageStats :=
      pyLower ((finalEnv env0 "STREAMLIT_BROWSER_GATHERUSAGESTATS").getD "") == "true" }

/-- The effective source string for the port: the pre-set
`STREAMLIT_SERVER_PORT`, else `PORT`, else `"8501"`. -/
def portSource (env0 : Env) : String :=
  (env0 "STREAMLIT_SERVER_PORT").getD ((env0 "PORT").getD "8501")

/-- `_safe_set_up_signal_handler`, with the original framework handler
abstracted as `original`, mapping the server argument to the list of calls
it performs; the returned list is the sequence of calls made to the original
handler. On the main thread the override delegates to the original with the
same argument; otherwise it does nothing and returns normally. -/
def safe_set_up_signal_handler {α : Type} (original : α → List α)
    (isMainThread : Bool) (server : α) : List α :=
  if isMainThread then original server else []

/-- The empty process environment. -/
def emptyEnv : Env := fun _ => none

/-- An environment holding a single variable. -/
def singleEnv (k v : String) : Env :=
  fun k' => if k' = k then some v else none

/-- An environment with all four `STREAMLIT_*` variables pre-set. -/
def envFour : Env :=
  fun k =>
    if k = "STREAMLIT_SERVER_ADDRESS" then some "10.0.0.1"
    else if k = "STREAMLIT_SERVER_PORT" then some "9000"
    else if k = "STREAMLIT_SERVER_HEADLESS" then some "false"
    else if k = "STREAMLIT_BROWSER_GATHERUSAGESTATS" then some "true"
    else none

/-- What an outside observer sees of a launched server: the bound address
and port and the headless/telemetry settings in force. -/
structure Observable where
  address : String
  port : Int
  headless : Bool
  gatherUsageStats : Bool

/-- The variant present in `src/render_bootstrap.py`: its `__main__` block
passes the dictionary returned by `_apply_render_defaults` to
`bootstrap.run` as the `flag_options` argument, so the server binds with
exactly the resolved settings of that dictionary. -/
def variantFlagOptions (env0 : Env) : Observable :=
  { address := (apply_render_defaults env0).address
    port := (apply_render_defaults env0).port
    headless := (apply_render_defaults env0).headless
    gatherUsageStats := (apply_render_defaults env0).gatherUsageStats }

/-- Modelled from the spec: the second of the "two near-duplicate variants"
of the launcher script is not under `src/`; only the flag-options variant
is. Per the spec the missing variant performs the same environment
resolution and then invokes the framework's command-line runner "after only
setting environment variables", so the framework derives address, port,
headless and telemetry settings from the `STREAMLIT_*` variables left in
the environment by the resolution, with the framework's own defaults for
absent or malformed values. -/
def variantCliRunner (env0 : Env) : Observable :=
  { address := ((apply_render_defaults env0).env "STREAMLIT_SERVER_ADDRESS").getD "0.0.0.0"
    port :=
      (pyParseInt (pyStrip
        (((apply_render_defaults env0).env "STREAMLIT_SERVER_PORT").getD "8501"))).getD 8501
    headless :=
      pyLower (((apply_render_defaults env0).env "STREAMLIT_SERVER_HEADLESS").getD "true") == "true"
    gatherUsageStats :=
      pyLower (((apply_render_defaults env0).env
        "STREAMLIT_BROWSER_GATHERUSAGESTATS").getD "false") == "true" }

theorem Env.set_get_self (e : Env) (k v : String) : e.set k v k = some v := by
  simp [Env.set]

theorem Env.set_get_ne (e : Env) (k v k' : String) (h : k' ≠ k) :
    e.set k v k' = e k' := by
  simp [Env.set, h]

theorem Env.setdefault_get_self (e : Env) (k v : String) :
    e.setdefault k v k = some ((e k).getD v) := by
  unfold Env.setdefault
  cases h : e k <;> simp [h, Env.set]

theorem Env.setdefault_get_ne (e : Env) (k v k' : String) (h : k' ≠ k) :
    e.setdefault k v k' = e k' := by
  unfold Env.setdefault
  cases he : e k <;> simp [Env.set, h]

theorem envAfterStats_get_address (env0 : Env) :
    envAfterStats env0 "STREAMLIT_SERVER_ADDRESS" =
      some ((env0 "STREAMLIT_SERVER_ADDRESS").getD "0.0.0.0") := by
  unfold envAfterStats envAfterHeadless envAfterPort
  rw [Env.setdefault_get_ne _ _ _ _ (by decide),
      Env.setdefault_get_ne _ _ _ _ (by decide),
      Env.setdefault_get_ne _ _ _ _ (by decide)]
  exact Env.setdefault_get_self _ _ _

theorem envAfterStats_get_port (env0 : Env) :
    envAfterStats env0 "STREAMLIT_SERVER_PORT" = some (portSource env0) := by
  unfold envAfterStats envAfterHeadless
  rw [Env.setdefault_get_ne _ _ _ _ (by decide),
      Env.setdefault_get_ne _ _ _ _ (by decide)]
  unfold envAfterPort
  rw [Env.setdefault_get_self]
  unfold envAfterAddress portSource
  rw [Env.setdefault_get_ne _ _ _ _ (by decide),
      Env.setdefault_get_ne _ _ _ _ (by decide)]

theorem envAfterStats_get_headless (env0 : Env) :
    envAfterStats env0 "STREAMLIT_SERVER_HEADLESS" =
      some ((env0 "STREAMLIT_SERVER_HEADLESS").getD "true") := by
  unfold envAfterStats
  rw [Env.setdefault_get_ne _ _ _ _ (by decide)]
  unfold envAfterHeadless
  rw [Env.setdefault_get_self]
  unfold envAfterPort envAfterAddress
  rw [Env.setdefault_get_ne _ _ _ _ (by decide),
      Env.setdefault_get_ne _ _ _ _ (by decide)]

theorem envAfterStats_get_stats (env0 : Env) :
    envAfterStats env0 "STREAMLIT_BROWSER_GATHERUSAGESTATS" =
      some ((env0 "STREAMLIT_BROWSER_GATHERUSAGESTATS").getD "false") := by
  unfold envAfterStats
  rw [Env.setdefault_get_self]
  unfold envAfterHeadless envAfterPort envAfterAddress
  rw [Env.setdefault_get_ne _ _ _ _ (by decide),
      Env.setdefault_get_ne _ _ _ _ (by decide),
      Env.setdefault_get_ne _ _ _ _ (by decide)]

theorem resolvedPort_eq (env0 : Env) :
    resolvedPort env0 = (pyParseInt (pyStrip (portSource env0))).getD 8501 := by
  unfold resolvedPort
  rw [envAfterStats_get_port]
  rfl

theorem finalEnv_get_PORT (env0 : Env) :
    finalEnv env0 "PORT" = some (intToStr (resolvedPort env0)) := by
  unfold finalEnv
  exact Env.set_get_self _ _ _

theorem finalEnv_get_ne (env0 : Env) (k : String) (h : k ≠ "PORT") :
    finalEnv env0 k = envAfterStats env0 k := by
  unfold finalEnv
  exact Env.set_get_ne _ _ _ _ h

theorem apply_port (env0 : Env) :
    (apply_render_defaults env0).port =
      (pyParseInt (pyStrip (portSource env0))).getD 8501 := by
  unfold apply_render_defaults
  exact resolvedPort_eq env0

theorem apply_env_PORT (env0 : Env) :
    (apply_render_defaults env0).env "PORT" =
      some (intToStr ((pyParseInt (pyStrip (portSource env0))).getD 8501)) := by
  show finalEnv env0 "PORT" = _
  rw [finalEnv_get_PORT, resolvedPort_eq]

theorem apply_env_port_var (env0 : Env) :
    (apply_render_defaults env0).env "STREAMLIT_SERVER_PORT" =
      some (portSource env0) := by
  show finalEnv env0 "STREAMLIT_SERVER_PORT" = _
  rw [finalEnv_get_ne _ _ (by decide)]
  exact envAfterStats_get_port env0

theorem apply_env_address (env0 : Env) :
    (apply_render_defaults env0).env "STREAMLIT_SERVER_ADDRESS" =
      some ((env0 "STREAMLIT_SERVER_ADDRESS").getD "0.0.0.0") := by
  show finalEnv env0 "STREAMLIT_SERVER_ADDRESS" = _
  rw [finalEnv_get_ne _ _ (by decide)]
  exact envAfterStats_get_address env0

theorem apply_env_headless (env0 : Env) :
    (apply_render_defaults env0).env "STREAMLIT_SERVER_HEADLESS" =
      some ((env0 "STREAMLIT_SERVER_HEADLESS").getD "true") := by
  show finalEnv env0 "STREAMLIT_SERVER_HEADLESS" = _
  rw [finalEnv_get_ne _ _ (by decide)]
  exact envAfterStats_get_headless env0

theorem apply_env_stats (env0 : Env) :
    (apply_render_defaults env0).env "STREAMLIT_BROWSER_GATHERUSAGESTATS" =
      some ((env0 "STREAMLIT_BROWSER_GATHERUSAGESTATS").getD "false") := by
  show finalEnv env0 "STREAMLIT_BROWSER_GATHERUSAGESTATS" = _
  rw [finalEnv_get_ne _ _ (by decide)]
  exact envAfterStats_get_stats env0

theorem apply_address (env0 : Env) :
    (apply_render_defaults env0).address =
      (env0 "STREAMLIT_SERVER_ADDRESS").getD "0.0.0.0" := by
  show (finalEnv env0 "STREAMLIT_SERVER_ADDRESS").getD "" = _
  rw [finalEnv_get_ne _ _ (by decide), envAfterStats_get_address]
  rfl

theorem apply_headless (env0 : Env) :
    (apply_render_defaults env0).headless =
      (pyLower ((env0 "STREAMLIT_SERVER_HEADLESS").getD "true") == "true") := by
  show (pyLower ((finalEnv env0 "STREAMLIT_SERVER_HEADLESS").getD "") == "true") = _
  rw [finalEnv_get_ne _ _ (by decide), envAfterStats_get_headless]
  rfl

theorem apply_gather (env0 : Env) :
    (apply_render_defaults env0).gatherUsageStats =
      (pyLower ((env0 "STREAMLIT_BROWSER_GATHERUSAGESTATS").getD "false") == "true") := by
  show (pyLower ((finalEnv env0 "STREAMLIT_BROWSER_GATHERUSAGESTATS").getD "") == "true") = _
  rw [finalEnv_get_ne _ _ (by decide), envAfterStats_get_stats]
  rfl

theorem space_not_digit {c : Char} (h : isPySpace c = true) : c.isDigit = false := by
  simp only [isPySpace, Bool.or_eq_true, beq_iff_eq] at h
  rcases h with ((((h | h) | h) | h) | h) | h <;> subst h <;> decide

theorem isDigit_not_space {c : Char} (h : c.isDigit = true) : isPySpace c = false := by
  cases hs : isPySpace c with
  | false => rfl
  | true => rw [space_not_digit hs] at h; cases h

theorem pyDigitsGo_no_space :
    ∀ (cs : List Char) (b : Bool) (acc n : Nat),
      pyDigitsGo cs b acc = some n → ∀ c ∈ cs, isPySpace c = false := by
  intro cs
  induction cs with
  | nil => intro b acc n h c hc; cases hc
  | cons a cs1 ih =>
      intro b acc n h c hc
      unfold pyDigitsGo at h
      by_cases ha : a.isDigit
      · rw [if_pos ha] at h
        rcases List.mem_cons.mp hc with hca | hcc
        · subst hca; exact isDigit_not_space ha
        · exact ih false _ n h c hcc
      · rw [if_neg ha] at h
        by_cases hu : a = '_'
        · rw [if_pos hu] at h
          cases b with
          | true => rw [if_pos rfl] at h; cases h
          | false =>
              rw [if_neg (by simp)] at h
              rcases List.mem_cons.mp hc with hca | hcc
              · subst hca; subst hu; decide
              · exact ih true _ n h c hcc
        · rw [if_neg hu] at h; cases h

theorem pyUnsignedVal_no_space {cs : List Char} {n : Nat}
    (h : pyUnsignedVal cs = some n) : ∀ c ∈ cs, isPySpace c = false := by
  cases cs with
  | nil => intro c hc; cases hc
  | cons a cs1 =>
      simp only [pyUnsignedVal] at h
      by_cases ha : a.isDigit
      · rw [if_pos ha] at h
        intro c hc
        rcases List.mem_cons.mp hc with hca | hcc
        · subst hca; exact isDigit_not_space ha
        · exact pyDigitsGo_no_space cs1 false _ n h c hcc
      · rw [if_neg ha] at h; cases h

theorem pyParseIntCore_shape {cs : List Char} {n : Int}
    (h : pyParseIntCore cs = some n) :
    cs ≠ [] ∧ ∀ c ∈ cs, isPySpace c = false := by
  cases cs with
  | nil => cases h
  | cons a cs1 =>
      refine ⟨by simp, ?_⟩
      simp only [pyParseIntCore] at h
      by_cases hp : a = '+'
      · rw [if_pos hp] at h
        cases hpu : pyUnsignedVal cs1 with
        | none => rw [hpu] at h; cases h
        | some m =>
            intro c hc
            rcases List.mem_cons.mp hc with hca | hcc
            · subst hca; subst hp; decide
            · exact pyUnsignedVal_no_space hpu c hcc
      · rw [if_neg hp] at h
        by_cases hmn : a = '-'
        · rw [if_pos hmn] at h
          cases hpu : pyUnsignedVal cs1 with
          | none => rw [hpu] at h; cases h
          | some m =>
              intro c hc
              rcases List.mem_cons.mp hc with hca | hcc
              · subst hca; subst hmn; decide
              · exact pyUnsignedVal_no_space hpu c hcc
        · rw [if_neg hmn] at h
          cases hpu : pyUnsignedVal (a :: cs1) with
          | none => rw [hpu] at h; cases h
          | some m => exact pyUnsignedVal_no_space hpu

theorem dropWhile_append_all {α : Type} {p : α → Bool} {l1 : List α} (l2 : List α)
    (h : ∀ c ∈ l1, p c = true) :
    (l1 ++ l2).dropWhile p = l2.dropWhile p := by
  induction l1 with
  | nil => rfl
  | cons c cs ih =>
      rw [List.cons_append, List.dropWhile_cons_of_pos (h c (List.mem_cons_self c cs))]
      exact ih (fun d hd => h d (List.mem_cons_of_mem c hd))

theorem dropWhile_all_false {α : Type} {p : α → Bool} {l : List α}
    (h : ∀ c ∈ l, p c = false) : l.dropWhile p = l := by
  cases l with
  | nil => rfl
  | cons c cs =>
      exact List.dropWhile_cons_of_neg (by simp [h c (List.mem_cons_self c cs)])

theorem pyStrip_sandwich (w1 t w2 : List Char)
    (hw1 : ∀ c ∈ w1, isPySpace c = true)
    (hw2 : ∀ c ∈ w2, isPySpace c = true)
    (ht : t ≠ [])
    (hts : ∀ c ∈ t, isPySpace c = false) :
    pyStripList (w1 ++ (t ++ w2)) = t := by
  unfold pyStripList
  rw [dropWhile_append_all _ hw1]
  cases t with
  | nil => exact absurd rfl ht
  | cons c cs =>
      rw [List.cons_append,
          List.dropWhile_cons_of_neg (by simp [hts c (List.mem_cons_self c cs)])]
      rw [show (c :: (cs ++ w2)).reverse = w2.reverse ++ (cs.reverse ++ [c]) from by simp]
      rw [dropWhile_append_all _ (fun d hd => hw2 d (List.mem_reverse.mp hd))]
      have hall : ∀ d ∈ cs.reverse ++ [c], isPySpace d = false := by
        intro d hd
        apply hts
        simp only [List.mem_append, List.mem_reverse, List.mem_singleton] at hd
        rcases hd with hd | hd
        · exact List.mem_cons_of_mem _ hd
        · subst hd; exact List.mem_cons_self _ _
      rw [dropWhile_all_false hall]
      simp

/-- Claim C1: for every environment in which the bind-port source variable
(`STREAMLIT_SERVER_PORT`, or `PORT` as its fallback) holds a string that
does not parse as an integer, configuration resolution completes without
raising (the embedding of `_apply_render_defaults` is a total function,
so completion is by construction), the resolved port equals 8501, and the
`PORT` variable is rewritten to `"8501"`. -/
theorem c1_nonnumeric_port_falls_back (env0 : Env)
    (hbad : pyParseInt (pyStrip (portSource env0)) = none) :
    (apply_render_defaults env0).port = 8501 ∧
    (apply_render_defaults env0).env "PORT" = some "8501" := by
  constructor
  · rw [apply_port, hbad]
    rfl
  · rw [apply_env_PORT, hbad]
    rfl

/-- Witness for C1 at the concrete environment where
`STREAMLIT_SERVER_PORT` is `"abc"`. -/
theorem c1_witness :
    pyParseInt (pyStrip (portSource (singleEnv "STREAMLIT_SERVER_PORT" "abc"))) = none ∧
    (apply_render_defaults (singleEnv "STREAMLIT_SERVER_PORT" "abc")).port = 8501 ∧
    (apply_render_defaults (singleEnv "STREAMLIT_SERVER_PORT" "abc")).env "PORT" =
      some "8501" :=
  ⟨by decide,
   c1_nonnumeric_port_falls_back (singleEnv "STREAMLIT_SERVER_PORT" "abc") (by decide)⟩

/-- Counterexample to claim C2 as stated: `"007"` is a valid integer string
(Python's `int("007")` is `7`), yet `PORT` is rewritten to `"7"`, not to
the original string `"007"`, so `PORT` does not "match that string
exactly". -/
theorem c2_counterexample :
    pyParseInt (pyStrip (portSource (singleEnv "STREAMLIT_SERVER_PORT" "007"))) = some 7 ∧
    (apply_render_defaults (singleEnv "STREAMLIT_SERVER_PORT" "007")).env "PORT" =
      some "7" ∧
    (apply_render_defaults (singleEnv "STREAMLIT_SERVER_PORT" "007")).env "PORT" ≠
      some "007" :=
  ⟨by decide, by decide, by decide⟩

/-- Claim C2 as amended: for every bind-port source value that is a valid
integer string, the resolved port equals that integer and `PORT` is
rewritten to the canonical decimal string of that integer -- which equals
the source value exactly whenever the source value is already in canonical
decimal form. -/
theorem c2_integer_port_resolved (env0 : Env) (n : Int)
    (hn : pyParseInt (pyStrip (portSource env0)) = some n) :
    (apply_render_defaults env0).port = n ∧
    (apply_render_defaults env0).env "PORT" = some (intToStr n) ∧
    (portSource env0 = intToStr n →
      (apply_render_defaults env0).env "PORT" = some (portSource env0)) := by
  refine ⟨?_, ?_, ?_⟩
  · rw [apply_port, hn]; rfl
  · rw [apply_env_PORT, hn]
    rfl
  · intro h
    rw [apply_env_PORT, hn, h]
    rfl

/-- Witness for the amended C2 at the concrete environment where
`STREAMLIT_SERVER_PORT` is the canonical string `"8502"`. -/
theorem c2_witness :
    (apply_render_defaults (singleEnv "STREAMLIT_SERVER_PORT" "8502")).port = 8502 ∧
    (apply_render_defaults (singleEnv "STREAMLIT_SERVER_PORT" "8502")).env "PORT" =
      some (portSource (singleEnv "STREAMLIT_SERVER_PORT" "8502")) :=
  ⟨(c2_integer_port_resolved (singleEnv "STREAMLIT_SERVER_PORT" "8502") 8502 (by decide)).1,
   (c2_integer_port_resolved (singleEnv "STREAMLIT_SERVER_PORT" "8502") 8502
      (by decide)).2.2 (by decide)⟩

/-- Claim C3: the patched signal-handler installation, invoked with any
server argument, calls the original framework handler exactly once with
that same argument when on the main thread, and returns normally without
invoking the original handler otherwise. `original` abstracts the original
handler as the list of calls its invocation performs. -/
theorem c3_signal_handler_thread_guard {α : Type} (original : α → List α)
    (isMainThread : Bool) (server : α) :
    (isMainThread = true →
      safe_set_up_signal_handler original isMainThread server = original server) ∧
    (isMainThread = false →
      safe_set_up_signal_handler original isMainThread server = []) := by
  constructor <;> intro h <;> simp [safe_set_up_signal_handler, h]

/-- Witness for C3: with the instrumented original handler that records its
argument, the main-thread call performs exactly the one delegated call and
the non-main-thread call performs none. -/
theorem c3_witness :
    safe_set_up_signal_handler (fun n : Nat => [n]) true 42 = [42] ∧
    safe_set_up_signal_handler (fun n : Nat => [n]) false 42 = [] :=
  ⟨(c3_signal_handler_thread_guard (fun n : Nat => [n]) true 42).1 rfl,
   (c3_signal_handler_thread_guard (fun n : Nat => [n]) false 42).2 rfl⟩

/-- Claim C4: the headless and telemetry flags in the returned mapping are
the booleans obtained by case-insensitive comparison of the respective
environment values with `"true"`, with the unset defaults `"true"` (so the
headless flag defaults to true) and `"false"` (so the telemetry flag
defaults to false). -/
theorem c4_headless_telemetry_flags (env0 : Env) :
    ((apply_render_defaults env0).headless =
      (pyLower ((env0 "STREAMLIT_SERVER_HEADLESS").getD "true") == "true")) ∧
    ((apply_render_defaults env0).gatherUsageStats =
      (pyLower ((env0 "STREAMLIT_BROWSER_GATHERUSAGESTATS").getD "false") == "true")) ∧
    (env0 "STREAMLIT_SERVER_HEADLESS" = none →
      (apply_render_defaults env0).headless = true) ∧
    (env0 "STREAMLIT_BROWSER_GATHERUSAGESTATS" = none →
      (apply_render_defaults env0).gatherUsageStats = false) := by
  refine ⟨apply_headless env0, apply_gather env0, ?_, ?_⟩
  · intro h; rw [apply_headless, h]; rfl
  · intro h; rw [apply_gather, h]; rfl

/-- Witness for C4 at the empty environment: both flag variables are unset,
the headless flag resolves to true and the telemetry flag to false. -/
theorem c4_witness :
    (apply_render_defaults emptyEnv).headless = true ∧
    (apply_render_defaults emptyEnv).gatherUsageStats = false :=
  ⟨(c4_headless_telemetry_flags emptyEnv).2.2.1 rfl,
   (c4_headless_telemetry_flags emptyEnv).2.2.2 rfl⟩

/-- Claim C5: when `STREAMLIT_SERVER_PORT` is unset it is defaulted to the
value of `PORT` when that is set and to `"8501"` otherwise, and when
`STREAMLIT_SERVER_ADDRESS` is unset it is defaulted to `"0.0.0.0"`, which
is also the address in the returned mapping. -/
theorem c5_port_and_address_defaults (env0 : Env)
    (hport : env0 "STREAMLIT_SERVER_PORT" = none) :
    (apply_render_defaults env0).env "STREAMLIT_SERVER_PORT" =
      some ((env0 "PORT").getD "8501") ∧
    (env0 "STREAMLIT_SERVER_ADDRESS" = none →
      (apply_render_defaults env0).env "STREAMLIT_SERVER_ADDRESS" = some "0.0.0.0" ∧
      (apply_render_defaults env0).address = "0.0.0.0") := by
  refine ⟨?_, fun h => ⟨?_, ?_⟩⟩
  · rw [apply_env_port_var]
    unfold portSource
    rw [hport]
    rfl
  · rw [apply_env_address, h]
    rfl
  · rw [apply_address, h]
    rfl

/-- Witness for C5 at the concrete environment where only `PORT` is set, to
`"1234"`: the port variable is defaulted from `PORT` and the address to
`"0.0.0.0"`. -/
theorem c5_witness :
    (apply_render_defaults (singleEnv "PORT" "1234")).env "STREAMLIT_SERVER_PORT" =
      some "1234" ∧
    (apply_render_defaults (singleEnv "PORT" "1234")).address = "0.0.0.0" :=
  ⟨((c5_port_and_address_defaults (singleEnv "PORT" "1234") (by decide)).1).trans
      (by decide),
   ((c5_port_and_address_defaults (singleEnv "PORT" "1234") (by decide)).2
      (by decide)).2⟩

/-- Claim C6: a value explicitly pre-set in any of the four `STREAMLIT_*`
variables is unchanged by configuration resolution, and the returned
mapping's address equals the pre-set bind address. -/
theorem c6_preset_values_preserved (env0 : Env) (a p hd g : String) :
    (env0 "STREAMLIT_SERVER_ADDRESS" = some a →
      (apply_render_defaults env0).env "STREAMLIT_SERVER_ADDRESS" = some a ∧
      (apply_render_defaults env0).address = a) ∧
    (env0 "STREAMLIT_SERVER_PORT" = some p →
      (apply_render_defaults env0).env "STREAMLIT_SERVER_PORT" = some p) ∧
    (env0 "STREAMLIT_SERVER_HEADLESS" = some hd →
      (apply_render_defaults env0).env "STREAMLIT_SERVER_HEADLESS" = some hd) ∧
    (env0 "STREAMLIT_BROWSER_GATHERUSAGESTATS" = some g →
      (apply_render_defaults env0).env "STREAMLIT_BROWSER_GATHERUSAGESTATS" = some g) := by
  refine ⟨fun h => ⟨?_, ?_⟩, fun h => ?_, fun h => ?_, fun h => ?_⟩
  · rw [apply_env_address, h]
    rfl
  · rw [apply_address, h]
    rfl
  · rw [apply_env_port_var]
    unfold portSource
    rw [h]
    rfl
  · rw [apply_env_headless, h]
    rfl
  · rw [apply_env_stats, h]
    rfl

/-- Witness for C6 at the concrete environment with all four variables
pre-set: every pre-set value survives resolution and the mapping address is
the pre-set one. -/
theorem c6_witness :
    (apply_render_defaults envFour).env "STREAMLIT_SERVER_ADDRESS" = some "10.0.0.1" ∧
    (apply_render_defaults envFour).address = "10.0.0.1" ∧
    (apply_render_defaults envFour).env "STREAMLIT_SERVER_PORT" = some "9000" ∧
    (apply_render_defaults envFour).env "STREAMLIT_SERVER_HEADLESS" = some "false" ∧
    (apply_render_defaults envFour).env "STREAMLIT_BROWSER_GATHERUSAGESTATS" =
      some "true" :=
  ⟨((c6_preset_values_preserved envFour "10.0.0.1" "9000" "false" "true").1 (by decide)).1,
   ((c6_preset_values_preserved envFour "10.0.0.1" "9000" "false" "true").1 (by decide)).2,
   (c6_preset_values_preserved envFour "10.0.0.1" "9000" "false" "true").2.1 (by decide),
   (c6_preset_values_preserved envFour "10.0.0.1" "9000" "false" "true").2.2.1 (by decide),
   (c6_preset_values_preserved envFour "10.0.0.1" "9000" "false" "true").2.2.2 (by decide)⟩

/-- Claim C7: the flag-options variant present in the source and the
environment-variable-only command-line-runner variant (modelled from the
spec, since only one of the two near-duplicate scripts is under `src/`)
produce the same externally observable effect in every environment: same
bound address and port, same headless and telemetry settings. -/
theorem c7_variants_equivalent (env0 : Env) :
    variantFlagOptions env0 = variantCliRunner env0 := by
  unfold variantFlagOptions variantCliRunner
  rw [apply_env_address, apply_env_port_var, apply_env_headless, apply_env_stats,
      apply_address, apply_port, apply_headless, apply_gather]
  rfl

/-- Claim C8: when `STREAMLIT_SERVER_PORT` was pre-set to a non-numeric
string, resolution leaves that variable holding the original string; only
`PORT` is rewritten (to `"8501"`), so the two variables disagree
afterwards. -/
theorem c8_port_var_left_stale (env0 : Env) (s : String)
    (hset : env0 "STREAMLIT_SERVER_PORT" = some s)
    (hbad : pyParseInt (pyStrip s) = none) :
    (apply_render_defaults env0).env "STREAMLIT_SERVER_PORT" = some s ∧
    (apply_render_defaults env0).env "PORT" = some "8501" ∧
    s ≠ "8501" := by
  have hsrc : portSource env0 = s := by
    unfold portSource
    rw [hset]
    rfl
  refine ⟨?_, ?_, ?_⟩
  · rw [apply_env_port_var, hsrc]
  · rw [apply_env_PORT, hsrc, hbad]
    rfl
  · intro he
    subst he
    exact absurd hbad (by decide)

/-- Witness for C8 at the concrete environment where
`STREAMLIT_SERVER_PORT` is `"xyz"`: the variable keeps `"xyz"` while `PORT`
becomes `"8501"`. -/
theorem c8_witness :
    (apply_render_defaults (singleEnv "STREAMLIT_SERVER_PORT" "xyz")).env
      "STREAMLIT_SERVER_PORT" = some "xyz" ∧
    (apply_render_defaults (singleEnv "STREAMLIT_SERVER_PORT" "xyz")).env "PORT" =
      some "8501" ∧
    "xyz" ≠ "8501" :=
  c8_port_var_left_stale (singleEnv "STREAMLIT_SERVER_PORT" "xyz") "xyz"
    (by decide) (by decide)

/-- Claim C9: when the bind-port source value is an integer literal
surrounded by (possibly empty) runs of whitespace, resolution strips the
whitespace and resolves to that integer rather than falling back to 8501,
and `PORT` is rewritten to the unpadded decimal string of that integer, so
whenever the original padded string differs from that normalized form,
`PORT` no longer holds the original string. -/
theorem c9_whitespace_padded_port (env0 : Env) (w1 t w2 : String) (n : Int)
    (hsrc : portSource env0 = w1 ++ t ++ w2)
    (hw1 : ∀ c ∈ w1.data, isPySpace c = true)
    (hw2 : ∀ c ∈ w2.data, isPySpace c = true)
    (ht : pyParseInt t = some n) :
    (apply_render_defaults env0).port = n ∧
    (apply_render_defaults env0).env "PORT" = some (intToStr n) ∧
    (w1 ++ t ++ w2 ≠ intToStr n →
      (apply_render_defaults env0).env "PORT" ≠ some (w1 ++ t ++ w2)) := by
  have hshape := pyParseIntCore_shape ht
  have hparse : pyParseInt (pyStrip (portSource env0)) = some n := by
    rw [hsrc]
    show pyParseIntCore (pyStrip (w1 ++ t ++ w2)).data = some n
    have hdata : (w1 ++ t ++ w2).data = w1.data ++ (t.data ++ w2.data) := by
      rw [String.data_append, String.data_append, List.append_assoc]
    unfold pyStrip
    rw [hdata, pyStrip_sandwich w1.data t.data w2.data hw1 hw2
      (fun hnil => hshape.1 (by cases t; simpa using hnil)) hshape.2]
    exact ht
  refine ⟨?_, ?_, ?_⟩
  · rw [apply_port, hparse]; rfl
  · rw [apply_env_PORT, hparse]
    rfl
  · intro hne hPORT
    rw [apply_env_PORT, hparse] at hPORT
    injection hPORT with hPORT
    exact hne hPORT.symm

/-- Witness for C9 at the concrete environment where
`STREAMLIT_SERVER_PORT` is `" 8502 "`: the port resolves to 8502 and `PORT`
is rewritten to the normalized `"8502"`, not the original padded string. -/
theorem c9_witness :
    (apply_render_defaults (singleEnv "STREAMLIT_SERVER_PORT" " 8502 ")).port = 8502 ∧
    (apply_render_defaults (singleEnv "STREAMLIT_SERVER_PORT" " 8502 ")).env "PORT" =
      some "8502" ∧
    (apply_render_defaults (singleEnv "STREAMLIT_SERVER_PORT" " 8502 ")).env "PORT" ≠
      some " 8502 " := by
  have h := c9_whitespace_padded_port (singleEnv "STREAMLIT_SERVER_PORT" " 8502 ")
    " " "8502" " " 8502 (by decide) (by decide) (by decide) (by decide)
  exact ⟨h.1, h.2.1.trans (by decide),
    fun hc => h.2.2 (by decide) (hc.trans (by decide))⟩

/-- Claim C10: port resolution performs no range validation: every string
parsing as an integer -- negative, zero, or beyond 65535 alike -- is
accepted unchanged as the resolved port and written back to `PORT` as its
decimal string. -/
theorem c10_no_port_range_check (env0 : Env) (s : String) (n : Int)
    (hsrc : portSource env0 = s)
    (hn : pyParseInt (pyStrip s) = some n) :
    (apply_render_defaults env0).port = n ∧
    (apply_render_defaults env0).env "PORT" = some (intToStr n) := by
  subst hsrc
  constructor
  · rw [apply_port, hn]; rfl
  · rw [apply_env_PORT, hn]
    rfl

/-- Witness for C10 at two concrete environments: the out-of-range
`"70000"` and the negative `"-3"` are both accepted verbatim. -/
theorem c10_witness :
    ((apply_render_defaults (singleEnv "STREAMLIT_SERVER_PORT" "70000")).port = 70000 ∧
     (apply_render_defaults (singleEnv "STREAMLIT_SERVER_PORT" "70000")).env "PORT" =
       some "70000") ∧
    ((apply_render_defaults (singleEnv "STREAMLIT_SERVER_PORT" "-3")).port = -3 ∧
     (apply_render_defaults (singleEnv "STREAMLIT_SERVER_PORT" "-3")).env "PORT" =
       some "-3") := by
  constructor
  · have h := c10_no_port_range_check (singleEnv "STREAMLIT_SERVER_PORT" "70000")
      "70000" 70000 (by decide) (by decide)
    exact ⟨h.1, h.2.trans (by decide)⟩
  · have h := c10_no_port_range_check (singleEnv "STREAMLIT_SERVER_PORT" "-3")
      "-3" (-3) (by decide) (by decide)
    exact ⟨h.1, h.2.trans (by decide)⟩
